import Mathlib

/-!
Verification of dicttoxml (version 1.6.6, `dicttoxml.py`) against its
natural-language specification.

The module converts a dynamically typed nested value (scalars, mappings,
sequences) into an XML string.  This file shallowly embeds the module:
Python values become the inductive type `Value`, the process-wide mutable
state (the global `ids` list and the pseudo-random source behind `randint`)
becomes the explicit `ProcState`, Python exceptions become `Except PyError`,
and the recursive conversion engine becomes a fuel-indexed family of
mutually recursive functions, so that every definition is executable and
concrete runs reduce by `rfl`/`decide`.  Any fuel at least the size of the
input structure plus the allocator retry count is sufficient; exhausting it
yields the artificial error `PyError.fuelOut`, which corresponds to no
source behaviour.
-/

namespace Dicttoxml

/-- Runtime values of the dynamically typed input language (the spec's
`Value`).  Constructors record exactly the information the engine inspects:
the runtime type, and for scalars the text produced by the language's string
conversion.  `float` and `number` carry that text directly (`number` is any
further `numbers.Number` such as `Decimal`; it also carries its runtime type
name), so no floating-point arithmetic is modelled.  `datetime` stands for
any object exposing `isoformat()`, carrying the ISO-8601 string.  `null` is
Python's `None`.  `other` is a value of an unrecognized runtime type — not a
number or bool, not a string, no `isoformat`, not `None`, not a mapping, not
iterable — carrying its runtime type name and its string conversion (used in
error messages). -/
inductive Value where
  | str (s : String)
  | int (n : Int)
  | float (text : String)
  | bool (b : Bool)
  | number (tyName : String) (text : String)
  | null
  | datetime (iso : String)
  | dict (entries : List (String × Value))
  | list (items : List Value)
  | other (tyName : String) (text : String)

/-- Errors of the embedding.  In the source both real kinds are Python
`TypeError`s: `typeError` is a type error raised by the interpreter itself
(here: the tuple-unpacking failure inside `get_xml_type`, lines 99-101),
while `unsupportedType` is the explicit
`raise TypeError('Unsupported data type: ...')` of `convert`/`convert_dict`/
`convert_list`, carrying `str(value)` and `type(value).__name__`.
`fuelOut` is an artifact of the fuel-indexed embedding of recursion and of
the allocator's retry loop; with sufficient fuel it never occurs. -/
inductive PyError where
  | typeError (msg : String)
  | unsupportedType (rendered : String) (tyName : String)
  | fuelOut
deriving DecidableEq, Repr

/-- Process-wide mutable state: the module-level `ids` list (line 29) and the
pseudo-random source consumed by `randint` (line 62), modelled as an
arbitrary stream `rnd` read at successive positions `pos`. -/
structure ProcState where
  ids : List String
  rnd : Nat → Nat
  pos : Nat

/-- Python `str(v)` for the values the engine ever stringifies: scalars (in
`convert_kv`'s output and in error messages) and unsupported values (in the
`Unsupported data type` message).  Containers are dispatched to
`convert_dict`/`convert_list` before any `str()` is consulted, so their
clause is never reached on an engine path; we return their `repr`-like text
where one is carried and a placeholder otherwise. -/
def py_str : Value → String
  | .str s => s
  | .int n => toString n
  | .float t => t
  | .bool b => if b then "True" else "False"
  | .number _ t => t
  | .null => "None"
  | .datetime iso => iso
  | .dict _ => "dict"
  | .list _ => "list"
  | .other _ t => t

/-- Python `type(v).__name__`. -/
def type_name : Value → String
  | .str _ => "str"
  | .int _ => "int"
  | .float _ => "float"
  | .bool _ => "bool"
  | .number t _ => t
  | .null => "NoneType"
  | .datetime _ => "datetime"
  | .dict _ => "dict"
  | .list _ => "list"
  | .other t _ => t

/-- The test `isinstance(v, numbers.Number) or type(v) in (str, unicode)`
used first at every dispatch site (lines 181, 227, 286).  Note that Python
`bool` is a subclass of `int`, hence an instance of `numbers.Number`: the
test is TRUE for booleans, so this branch captures them before the dedicated
`type(v) == bool` branch is ever reached. -/
def is_py_number_or_str : Value → Bool
  | .str _ | .int _ | .float _ | .bool _ | .number _ _ => true
  | _ => false

/-- The test `isinstance(v, collections.Iterable)` (lines 196, 247, 310).
Strings, mappings and sequences are all iterable in the source language;
the dispatch sites reach this test only after the string and mapping
branches have failed to match. -/
def py_iterable : Value → Bool
  | .str _ | .dict _ | .list _ => true
  | _ => false

/-- Assignment `d[k] = v` on an insertion-ordered mapping rendered as an
association list: overwrite in place if the key is present, else append. -/
def dict_set (d : List (String × String)) (k v : String) :
    List (String × String) :=
  if d.any (fun p => p.1 = k) then
    d.map (fun p => if p.1 = k then (p.1, v) else p)
  else
    d ++ [(k, v)]

/-- The keys of `type_str_mapping` (lines 86-97) as they exist at runtime
under Python 3, where `unicode` aliases `str` and `long` aliases `int`, so
the dict holds eight distinct keys. -/
inductive PyType where
  | str | int | float | bool | numbersNumber | noneType | dict | iterable
deriving DecidableEq, Repr

/-- The key list of `type_str_mapping`, in insertion order. -/
def type_str_mapping_keys : List PyType :=
  [.str, .int, .float, .bool, .numbersNumber, .noneType, .dict, .iterable]

/-- Embedding of `get_xml_type` (lines 81-103).  The source iterates
`for val_type, type_str in type_str_mapping:` directly over the dict, which
yields its KEYS — type objects — and tuple-unpacks each one into
`val_type, type_str`.  A type object is not iterable, so the very first
iteration raises `TypeError: cannot unpack non-iterable type object`,
before any `isinstance` test runs.  Hence the function raises for every
argument; only an empty mapping would fall through to the final
`return type(val).__name__`. -/
def get_xml_type (val : Value) : Except PyError String :=
  match type_str_mapping_keys with
  | [] => .ok (type_name val)
  | _ :: _ => .error (.typeError "cannot unpack non-iterable type object")

/-- Python `s.replace(old, new)` for a one-character `old` (the only form
the source ever uses): substitute every occurrence, left to right. -/
def py_replace (s : String) (old : Char) (new : String) : String :=
  String.join (s.data.map
    (fun c => if c = old then new else String.singleton c))

/-- Embedding of `xml_escape` (lines 106-114): applied only when
`type(s) in (str, unicode)`; every other value is returned unchanged.  The
five replacements happen in this order: `&`, `\x22`, `\x27`, `<`, `>`. -/
def xml_escape (s : Value) : Value :=
  match s with
  | .str s =>
      .str (py_replace (py_replace (py_replace (py_replace (py_replace
        s '&' "&amp;") '\x22' "&quot;") '\x27' "&apos;") '<' "&lt;")
        '>' "&gt;")
  | v => v

/-- Embedding of `make_attrstring` (lines 117-122): ` `-joined
`key="value"` pairs, with one leading space iff the result is non-empty. -/
def make_attrstring (attr : List (String × String)) : String :=
  let attrstring :=
    String.intercalate " "
      (attr.map (fun p => p.1 ++ "=\x22" ++ p.2 ++ "\x22"))
  (if attrstring ≠ "" then " " else "") ++ attrstring

/-- Characters allowed to start an XML 1.0 name (ASCII fragment). -/
def name_start_char (c : Char) : Bool :=
  c.isAlpha || c = '_' || c = ':'

/-- Characters allowed inside an XML 1.0 name (ASCII fragment). -/
def name_char (c : Char) : Bool :=
  name_start_char c || c.isDigit || c = '-' || c = '.'

/-- Embedding of `key_is_valid_xml` (lines 125-138).  The source builds
`<?xml version="1.0" encoding="UTF-8" ?><KEY>foo</KEY>` and asks
`xml.dom.minidom.parseString` (expat) to parse it, returning `False` on any
exception.  That document parses exactly when `KEY` matches the XML `Name`
production; we embed that production over its ASCII fragment (the engine
only ever needs ASCII names; non-ASCII name letters would make this model
conservative, never on a path any theorem below evaluates). -/
def key_is_valid_xml (key : String) : Bool :=
  match key.data with
  | [] => false
  | c :: cs => name_start_char c && cs.all name_char

/-- Python `key.isdigit()`: non-empty and all digits. -/
def str_isdigit (s : String) : Bool :=
  !s.isEmpty && s.data.all Char.isDigit

/-- Embedding of `make_valid_xml_name` (lines 141-166): pass a valid key
through; prefix `n` to an all-digit key; try replacing spaces with
underscores; otherwise move the key into a `name` attribute and use the
placeholder tag `key`. -/
def make_valid_xml_name (key : String) (attr : List (String × String)) :
    String × List (String × String) :=
  if key_is_valid_xml key then (key, attr)
  else if str_isdigit key then ("n" ++ key, attr)
  else if key_is_valid_xml (py_replace key ' ' "_") then
    (py_replace key ' ' "_", attr)
  else ("key", dict_set attr "name" key)

/-- One draw of `randint(100000, 999999)` (line 62): the next value of the
stream, folded into the inclusive range, advancing the stream position. -/
def randint_draw (st : ProcState) : Nat × ProcState :=
  (100000 + st.rnd st.pos % 900000, { st with pos := st.pos + 1 })

/-- Embedding of `make_id` (lines 58-62): `element + "_" + randint(...)`. -/
def make_id (element : String) (st : ProcState) : String × ProcState :=
  let (n, st') := randint_draw st
  (element ++ "_" ++ toString n, st')

/-- The `while dup is True` retry loop of `get_unique_id` (lines 70-77),
bounded by fuel (the source retries without bound until a fresh candidate
appears).  A fresh candidate is appended to the global `ids` list and
returned (`return ids[-1]`, which in this single-threaded code is exactly
the id just appended). -/
def get_unique_id_go (fuel : Nat) (element : String) (this_id : String)
    (st : ProcState) : Option (String × ProcState) :=
  match fuel with
  | 0 => Option.none
  | fuel + 1 =>
    if this_id ∈ st.ids then
      let (next, st') := make_id element st
      get_unique_id_go fuel element next st'
    else
      some (this_id, { st with ids := st.ids ++ [this_id] })

/-- Embedding of `get_unique_id` (lines 65-78): draw an initial candidate
with `make_id`, then retry until it is absent from the global registry. -/
def get_unique_id (fuel : Nat) (element : String) (st : ProcState) :
    Option (String × ProcState) :=
  let (cand, st') := make_id element st
  get_unique_id_go fuel element cand st'

/-- Embedding of `convert_kv` (lines 341-358): sanitize the key, optionally
attach the classifier's tag as a `type` attribute (the classifier call
raises, see `get_xml_type`), and emit
`<key attrs>escaped-value</key>`. -/
def convert_kv (key : String) (val : Value) (attr_type : Bool)
    (attr : List (String × String)) : Except PyError String := do
  let (key2, attr2) := make_valid_xml_name key attr
  let attr3 ←
    if attr_type then do
      let t ← get_xml_type val
      pure (dict_set attr2 "type" t)
    else pure attr2
  pure ("<" ++ key2 ++ make_attrstring attr3 ++ ">" ++
    py_str (xml_escape val) ++ "</" ++ key2 ++ ">")

/-- Embedding of `convert_bool` (lines 361-377): like `convert_kv` but the
content is `str(val).lower()`, i.e. lowercase `true`/`false`. -/
def convert_bool (key : String) (val : Bool) (attr_type : Bool)
    (attr : List (String × String)) : Except PyError String := do
  let (key2, attr2) := make_valid_xml_name key attr
  let attr3 ←
    if attr_type then do
      let t ← get_xml_type (.bool val)
      pure (dict_set attr2 "type" t)
    else pure attr2
  pure ("<" ++ key2 ++ make_attrstring attr3 ++ ">" ++
    (if val then "true" else "false") ++ "</" ++ key2 ++ ">")

/-- Embedding of `convert_none` (lines 380-393): an empty-content element
`<key attrs></key>`. -/
def convert_none (key : String) (val : Value) (attr_type : Bool)
    (attr : List (String × String)) : Except PyError String := do
  let (key2, attr2) := make_valid_xml_name key attr
  let attr3 ←
    if attr_type then do
      let t ← get_xml_type val
      pure (dict_set attr2 "type" t)
    else pure attr2
  pure ("<" ++ key2 ++ make_attrstring attr3 ++ "></" ++ key2 ++ ">")

mutual

/-- Embedding of `convert` (lines 169-201), the type dispatcher, with the
source's branch order made explicit by constructor: the
`isinstance(obj, numbers.Number) or type(obj) in (str, unicode)` test (line
181) captures `str`, `int`, `float`, `number` AND `bool` (a numeric
subtype), so the later `type(obj) == bool` branch (line 187) is dead; then
`hasattr(obj, 'isoformat')`, then `obj is None` (passing the empty string to
`convert_none`, line 191), then `isinstance(obj, dict)`, then
`isinstance(obj, collections.Iterable)`, else
`raise TypeError('Unsupported data type: ...')`. -/
def convert (fuel : Nat) (obj : Value) (ids attr_type : Bool)
    (parent : String) (st : ProcState) :
    Except PyError String × ProcState :=
  match fuel with
  | 0 => (.error .fuelOut, st)
  | fuel + 1 =>
    match obj with
    | .str s => (convert_kv "item" (.str s) attr_type [], st)
    | .int n => (convert_kv "item" (.int n) attr_type [], st)
    | .float t => (convert_kv "item" (.float t) attr_type [], st)
    | .bool b => (convert_kv "item" (.bool b) attr_type [], st)
    | .number ty t => (convert_kv "item" (.number ty t) attr_type [], st)
    | .datetime iso => (convert_kv "item" (.str iso) attr_type [], st)
    | .null => (convert_none "item" (.str "") attr_type [], st)
    | .dict entries => convert_dict fuel entries ids parent attr_type st
    | .list items => convert_list fuel items ids parent attr_type st
    | .other ty t => (.error (.unsupportedType t ty), st)

/-- Embedding of the `for key, val in obj.items()` loop of `convert_dict`
(lines 204-264): per entry, build the attribute set (an `id` from the
allocator when `ids` is set, line 224), process the entry
(`convert_dict_entry`), and concatenate; an exception raised while
processing an entry propagates immediately, keeping whatever state the
allocator already committed. -/
def convert_dict (fuel : Nat) (entries : List (String × Value)) (ids : Bool)
    (parent : String) (attr_type : Bool) (st : ProcState) :
    Except PyError String × ProcState :=
  match fuel with
  | 0 => (.error .fuelOut, st)
  | fuel + 1 =>
    match entries with
    | [] => (.ok "", st)
    | (key, val) :: rest =>
      let attrRes : Except PyError (List (String × String) × ProcState) :=
        if ids then
          match get_unique_id fuel parent st with
          | some (i, st') => .ok ([("id", i)], st')
          | Option.none => .error .fuelOut
        else .ok ([], st)
      match attrRes with
      | .error e => (.error e, st)
      | .ok (attr, st1) =>
        match convert_dict_entry fuel key val ids parent attr_type attr st1 with
        | (.error e, st2) => (.error e, st2)
        | (.ok line, st2) =>
          match convert_dict fuel rest ids parent attr_type st2 with
          | (.error e, st3) => (.error e, st3)
          | (.ok restOut, st3) => (.ok (line ++ restOut), st3)

/-- Embedding of the body of `convert_dict`'s loop (lines 225-263): sanitize
the key (line 225), then dispatch on the value, in the source's branch
order: number-or-string (captures booleans, so the `type(val) == bool`
branch at line 234 is dead), `isoformat`, bool (dead), mapping (wrapped in
`<key attrs>...</key>`, recursing with the sanitized key as the new parent,
and attempting `attr['type'] = get_xml_type(val)` first when `attr_type`),
iterable (same shape via `convert_list`), `None`, else raise. -/
def convert_dict_entry (fuel : Nat) (key : String) (val : Value)
    (ids : Bool) (parent : String) (attr_type : Bool)
    (attr : List (String × String)) (st : ProcState) :
    Except PyError String × ProcState :=
  match fuel with
  | 0 => (.error .fuelOut, st)
  | fuel + 1 =>
    let key2 := (make_valid_xml_name key attr).1
    let attr2 := (make_valid_xml_name key attr).2
    match val with
    | .str s => (convert_kv key2 (.str s) attr_type attr2, st)
    | .int n => (convert_kv key2 (.int n) attr_type attr2, st)
    | .float t => (convert_kv key2 (.float t) attr_type attr2, st)
    | .bool b => (convert_kv key2 (.bool b) attr_type attr2, st)
    | .number ty t => (convert_kv key2 (.number ty t) attr_type attr2, st)
    | .datetime iso => (convert_kv key2 (.str iso) attr_type attr2, st)
    | .dict d =>
      match
        (if attr_type then
          (get_xml_type (.dict d)).map (fun t => dict_set attr2 "type" t)
        else .ok attr2) with
      | .error e => (.error e, st)
      | .ok attr3 =>
        match convert_dict fuel d ids key2 attr_type st with
        | (.error e, st') => (.error e, st')
        | (.ok inner, st') =>
          (.ok ("<" ++ key2 ++ make_attrstring attr3 ++ ">" ++ inner ++
            "</" ++ key2 ++ ">"), st')
    | .list l =>
      match
        (if attr_type then
          (get_xml_type (.list l)).map (fun t => dict_set attr2 "type" t)
        else .ok attr2) with
      | .error e => (.error e, st)
      | .ok attr3 =>
        match convert_list fuel l ids key2 attr_type st with
        | (.error e, st') => (.error e, st')
        | (.ok inner, st') =>
          (.ok ("<" ++ key2 ++ make_attrstring attr3 ++ ">" ++ inner ++
            "</" ++ key2 ++ ">"), st')
    | .null => (convert_none key2 .null attr_type attr2, st)
    | .other ty t => (.error (.unsupportedType t ty), st)

/-- Embedding of `convert_list` (lines 267-338), head part: when `ids` is
set, one identity scoped to `parent` is allocated up front (line 276) —
even for an empty sequence — and per-element ids are derived from it by
suffixing the 1-based index; then the loop (`convert_list_go`) runs. -/
def convert_list (fuel : Nat) (items : List Value) (ids : Bool)
    (parent : String) (attr_type : Bool) (st : ProcState) :
    Except PyError String × ProcState :=
  match fuel with
  | 0 => (.error .fuelOut, st)
  | fuel + 1 =>
    if ids then
      match get_unique_id fuel parent st with
      | some (tid, st') =>
        convert_list_go fuel items ids parent attr_type tid 0 st'
      | Option.none => (.error .fuelOut, st)
    else convert_list_go fuel items ids parent attr_type "" 0 st

/-- The `for i, item in enumerate(items)` loop of `convert_list` (lines
278-336): per element, the attribute set is `{'id': this_id_(i+1)}` when
`ids` is set (line 284; `this_id` is the single id allocated up front) and
empty otherwise; elements are processed in order and concatenated, an
exception propagating immediately. -/
def convert_list_go (fuel : Nat) (items : List Value) (ids : Bool)
    (parent : String) (attr_type : Bool) (this_id : String) (i : Nat)
    (st : ProcState) : Except PyError String × ProcState :=
  match fuel with
  | 0 => (.error .fuelOut, st)
  | fuel + 1 =>
    match items with
    | [] => (.ok "", st)
    | item :: rest =>
      let attr : List (String × String) :=
        if ids then [("id", this_id ++ "_" ++ toString (i + 1))] else []
      match convert_list_item fuel item ids parent attr_type attr st with
      | (.error e, st1) => (.error e, st1)
      | (.ok line, st1) =>
        match
          convert_list_go fuel rest ids parent attr_type this_id (i + 1)
            st1 with
        | (.error e, st2) => (.error e, st2)
        | (.ok restOut, st2) => (.ok (line ++ restOut), st2)

/-- The body of `convert_list`'s loop (lines 286-336), dispatching one
element: number-or-string (captures booleans; the bool branch at line 293 is
dead), `isoformat`, bool (dead), then the asymmetric container cases — a
nested mapping is spliced bare via `convert_dict` with the SAME parent when
`attr_type` is false, and wrapped in the literal `<item type="dict">`
(dropping the element's `id` attribute) when true; a nested sequence is
spliced bare via `convert_list` with parent `"item"` when false, and
wrapped in `<item type="list" attrs>` when true — then `None`, else
raise. -/
def convert_list_item (fuel : Nat) (item : Value) (ids : Bool)
    (parent : String) (attr_type : Bool) (attr : List (String × String))
    (st : ProcState) : Except PyError String × ProcState :=
  match fuel with
  | 0 => (.error .fuelOut, st)
  | fuel + 1 =>
    match item with
    | .str s => (convert_kv "item" (.str s) attr_type attr, st)
    | .int n => (convert_kv "item" (.int n) attr_type attr, st)
    | .float t => (convert_kv "item" (.float t) attr_type attr, st)
    | .bool b => (convert_kv "item" (.bool b) attr_type attr, st)
    | .number ty t => (convert_kv "item" (.number ty t) attr_type attr, st)
    | .datetime iso => (convert_kv "item" (.str iso) attr_type attr, st)
    | .dict d =>
      if !attr_type then
        convert_dict fuel d ids parent attr_type st
      else
        match convert_dict fuel d ids parent attr_type st with
        | (.error e, st') => (.error e, st')
        | (.ok inner, st') =>
          (.ok ("<item type=\x22dict\x22>" ++ inner ++ "</item>"), st')
    | .list l =>
      if !attr_type then
        convert_list fuel l ids "item" attr_type st
      else
        match convert_list fuel l ids "item" attr_type st with
        | (.error e, st') => (.error e, st')
        | (.ok inner, st') =>
          (.ok ("<item type=\x22list\x22" ++ make_attrstring attr ++ ">" ++
            inner ++ "</item>"), st')
    | .null => (convert_none "item" .null attr_type attr, st)
    | .other ty t => (.error (.unsupportedType t ty), st)

end

/-- Embedding of `dicttoxml` (lines 396-422), the document assembler: with
`root` set, emit the fixed prolog and wrap the engine's output in
`<custom_root>...</custom_root>` (the engine runs with
`parent = custom_root`); otherwise emit the bare fragment (with
`parent = ''`).  The source builds the final byte string by UTF-8 encoding
this string; we state results on the string itself. -/
def dicttoxml (fuel : Nat) (obj : Value) (root : Bool)
    (custom_root : String) (ids attr_type : Bool) (st : ProcState) :
    Except PyError String × ProcState :=
  if root then
    match convert fuel obj ids attr_type custom_root st with
    | (.error e, st') => (.error e, st')
    | (.ok inner, st') =>
      (.ok ("<?xml version=\x221.0\x22 encoding=\x22UTF-8\x22 ?>" ++
        "<" ++ custom_root ++ ">" ++ inner ++ "</" ++ custom_root ++ ">"),
        st')
  else
    convert fuel obj ids attr_type "" st

/-!
Theorems settling the claims.
-/

/-- C1: the claim says the Type Classifier returns normally on every
recognized kind with one of the eight tags.  The code cannot: iterating
`for val_type, type_str in type_str_mapping:` runs over the dict's keys and
tuple-unpacks a type object, raising `TypeError` on the first iteration for
EVERY argument — `get_xml_type` never returns a tag.  This theorem evaluates
the embedded classifier on all inputs at once. -/
theorem get_xml_type_always_raises :
    ∀ v, get_xml_type v =
      .error (.typeError "cannot unpack non-iterable type object") :=
  fun _ => rfl

/-- C9: `xml_escape` rewrites exactly the five entities in the source's
order on text values, passes every non-text scalar (integers, floats,
booleans, other numerics) through unchanged, and
`escape("<a&b>") = "&lt;a&amp;b&gt;"`. -/
theorem xml_escape_spec :
    (∀ s, xml_escape (.str s) =
      .str (py_replace (py_replace (py_replace (py_replace (py_replace
        s '&' "&amp;") '\x22' "&quot;") '\x27' "&apos;") '<' "&lt;")
        '>' "&gt;")) ∧
    (∀ n : Int, xml_escape (.int n) = .int n) ∧
    (∀ t, xml_escape (.float t) = .float t) ∧
    (∀ b, xml_escape (.bool b) = .bool b) ∧
    (∀ ty t, xml_escape (.number ty t) = .number ty t) ∧
    xml_escape (.str "<a&b>") = .str "&lt;a&amp;b&gt;" :=
  ⟨fun _ => rfl, fun _ => rfl, fun _ => rfl, fun _ => rfl,
    fun _ _ => rfl, rfl⟩

/-- C6: `make_valid_xml_name` implements exactly the four-case analysis of
the claim — valid key unchanged; digit-only key prefixed with `n`;
space-to-underscore repair when that alone fixes validity; otherwise the
placeholder tag `key` with the original key preserved in a `name`
attribute — and, being a total Lean function, never raises.  In particular
`make_valid_xml_name "123"` returns `"n123"`. -/
theorem make_valid_xml_name_cases :
    (∀ key attr, make_valid_xml_name key attr =
      if key_is_valid_xml key then (key, attr)
      else if str_isdigit key then ("n" ++ key, attr)
      else if key_is_valid_xml (py_replace key ' ' "_") then
        (py_replace key ' ' "_", attr)
      else ("key", dict_set attr "name" key)) ∧
    make_valid_xml_name "123" [] = ("n123", []) :=
  ⟨fun _ _ => rfl, rfl⟩

/-- C2: the claim says booleans render lowercase with the bool check taking
precedence over numeric classification.  In the code the numeric test
`isinstance(val, numbers.Number)` runs FIRST and is true for booleans (a
numeric subtype), so `{"a": True}` with type attributes disabled renders as
`<a>True</a>` — capital T, via `convert_kv` — not `<a>true</a>`; with type
attributes enabled the entry does not render at all because the classifier
raises.  The dedicated `convert_bool` branch is dead code at every dispatch
site. -/
theorem bool_rendered_capitalized :
    is_py_number_or_str (Value.bool true) = true ∧
    (∀ st, convert_dict 3 [("a", Value.bool true)] false "root" false st =
      (.ok "<a>True</a>", st)) ∧
    (∀ st, convert_dict 3 [("a", Value.bool false)] false "root" false st =
      (.ok "<a>False</a>", st)) ∧
    (∀ st, convert_dict 3 [("a", Value.bool true)] false "root" true st =
      (.error (.typeError "cannot unpack non-iterable type object"), st)) :=
  ⟨rfl, fun _ => rfl, fun _ => rfl, fun _ => rfl⟩

/-- C3: `dicttoxml` on `{"a": 1, "b": [1, 2]}` with a root, root name
`root`, no ids and no type attributes yields exactly the claimed document
(whose UTF-8 encoding is the byte output), in every process state. -/
theorem dicttoxml_example_no_type_attr :
    ∀ st, dicttoxml 32 (Value.dict
      [("a", Value.int 1), ("b", Value.list [Value.int 1, Value.int 2])])
      true "root" false false st =
    (.ok ("<?xml version=\x221.0\x22 encoding=\x22UTF-8\x22 ?>" ++
      "<root><a>1</a><b><item>1</item><item>2</item></b></root>"), st) :=
  fun _ => rfl

/-- C7: the claim says the engine fails with `UnsupportedType` exactly when
a value's shape is unrecognized.  The `raise TypeError('Unsupported data
type: ...')` sites do fire on every unrecognized value, at all three
dispatchers, carrying `str(value)` and the runtime type name (first three
conjuncts); but the "exactly" direction fails: with type attributes enabled
the classifier's unpacking bug raises a `TypeError` that is not an
`UnsupportedType` even though every value in `{"a": 1}` is recognized
(last conjunct). -/
theorem unsupported_type_errors :
    (∀ fuel ty t ids attr_type parent st,
      convert (fuel + 1) (.other ty t) ids attr_type parent st =
        (.error (.unsupportedType t ty), st)) ∧
    (∀ fuel key ty t ids parent attr_type attr st,
      convert_dict_entry (fuel + 1) key (.other ty t) ids parent attr_type
        attr st = (.error (.unsupportedType t ty), st)) ∧
    (∀ fuel ty t ids parent attr_type attr st,
      convert_list_item (fuel + 1) (.other ty t) ids parent attr_type attr
        st = (.error (.unsupportedType t ty), st)) ∧
    (∀ st, convert 3 (.dict [("a", Value.int 1)]) false true "root" st =
      (.error (.typeError "cannot unpack non-iterable type object"), st)) :=
  ⟨fun _ _ _ _ _ _ _ => rfl, fun _ _ _ _ _ _ _ _ _ => rfl,
    fun _ _ _ _ _ _ _ _ => rfl, fun _ => rfl⟩

/-- C10: strings are iterable (`py_iterable`), yet each of the three
dispatch sites tests the string/number case first, so a string value is
handed to the scalar leaf renderer `convert_kv` — at top level, as a
mapping value, and as a sequence element — and is never decomposed into its
characters; concretely, a top-level `"ab"` renders as the single element
`<item>ab</item>`. -/
theorem string_not_decomposed :
    (∀ s, py_iterable (Value.str s) = true) ∧
    (∀ fuel s ids attr_type parent st,
      convert (fuel + 1) (.str s) ids attr_type parent st =
        (convert_kv "item" (.str s) attr_type [], st)) ∧
    (∀ fuel key s ids parent attr_type attr st,
      convert_dict_entry (fuel + 1) key (.str s) ids parent attr_type attr
        st =
        (convert_kv (make_valid_xml_name key attr).1 (.str s) attr_type
          (make_valid_xml_name key attr).2, st)) ∧
    (∀ fuel s ids parent attr_type attr st,
      convert_list_item (fuel + 1) (.str s) ids parent attr_type attr st =
        (convert_kv "item" (.str s) attr_type attr, st)) ∧
    (∀ st, convert 3 (.str "ab") false false "root" st =
      (.ok "<item>ab</item>", st)) :=
  ⟨fun _ => rfl, fun _ _ _ _ _ _ => rfl, fun _ _ _ _ _ _ _ _ => rfl,
    fun _ _ _ _ _ _ _ => rfl, fun _ => rfl⟩

/-- C4: the asymmetric wrapping contract for containers nested in a
sequence.  A nested mapping with type attributes off is spliced bare —
`convert_dict` recursing with the SAME parent name as the list; with type
attributes on, whatever the recursion produces is wrapped in
`<item type="dict">...</item>`.  A nested sequence shows the same
asymmetry: bare splice recursing with parent name `"item"` when off,
wrapped `<item type="list" attrs>...</item>` when on. -/
theorem list_nested_container_wrapping :
    (∀ fuel d ids parent attr st,
      convert_list_item (fuel + 1) (.dict d) ids parent false attr st =
        convert_dict fuel d ids parent false st) ∧
    (∀ fuel d ids parent attr st,
      convert_list_item (fuel + 1) (.dict d) ids parent true attr st =
        ((convert_dict fuel d ids parent true st).1.map
          (fun inner => "<item type=\x22dict\x22>" ++ inner ++ "</item>"),
         (convert_dict fuel d ids parent true st).2)) ∧
    (∀ fuel l ids parent attr st,
      convert_list_item (fuel + 1) (.list l) ids parent false attr st =
        convert_list fuel l ids "item" false st) ∧
    (∀ fuel l ids parent attr st,
      convert_list_item (fuel + 1) (.list l) ids parent true attr st =
        ((convert_list fuel l ids "item" true st).1.map
          (fun inner => "<item type=\x22list\x22" ++ make_attrstring attr ++
            ">" ++ inner ++ "</item>"),
         (convert_list fuel l ids "item" true st).2)) := by
  refine ⟨fun _ _ _ _ _ _ => rfl, fun fuel d ids parent attr st => ?_,
    fun _ _ _ _ _ _ => rfl, fun fuel l ids parent attr st => ?_⟩
  · rcases h : convert_dict fuel d ids parent true st with ⟨res, st'⟩
    rcases res with e | inner <;>
      simp [convert_list_item, h, Except.map]
  · rcases h : convert_list fuel l ids "item" true st with ⟨res, st'⟩
    rcases res with e | inner <;>
      simp [convert_list_item, h, Except.map]

/-- The retry loop of the Identity Allocator only ever returns a candidate
that was absent from the registry when chosen, and appends exactly that
candidate before returning. -/
theorem get_unique_id_go_fresh :
    ∀ fuel element cand st i st',
      get_unique_id_go fuel element cand st = some (i, st') →
      i ∉ st.ids ∧ st'.ids = st.ids ++ [i] := by
  intro fuel
  induction fuel with
  | zero =>
    intro element cand st i st' h
    simp [get_unique_id_go] at h
  | succ n ih =>
    intro element cand st i st' h
    rw [get_unique_id_go] at h
    by_cases hc : cand ∈ st.ids
    · rw [if_pos hc] at h
      have := ih element _ _ i st' h
      simpa [make_id, randint_draw] using this
    · rw [if_neg hc] at h
      obtain ⟨h1, h2⟩ := Prod.mk.injEq .. ▸ Option.some.injEq .. ▸ h
      subst h1
      refine ⟨hc, ?_⟩
      rw [← h2]

/-- C8: every identifier the Identity Allocator returns is absent from the
registry at the moment it is chosen and is appended to the registry before
being returned; consequently a registry without duplicates stays without
duplicates across any number of allocations, so all identifiers issued
during a process lifetime (which starts from the empty, duplicate-free
registry) are pairwise distinct, including across separate conversions. -/
theorem get_unique_id_fresh :
    ∀ fuel element st i st',
      get_unique_id fuel element st = some (i, st') →
      i ∉ st.ids ∧ st'.ids = st.ids ++ [i] ∧
      (st.ids.Nodup → st'.ids.Nodup) := by
  intro fuel element st i st' h
  rw [get_unique_id] at h
  have hgo := get_unique_id_go_fresh fuel element _ _ i st' h
  refine ⟨hgo.1, hgo.2, fun hnd => ?_⟩
  rw [hgo.2]
  simp [List.nodup_append, hnd, hgo.1]

/-- A fixed pseudo-random stream for the C8 witness. -/
def rnd5 : Nat → Nat := fun _ => 5

/-- Witness for C8: a concrete allocation from the empty registry with the
constant stream `rnd5` issues `root_100005`, fresh and registered. -/
theorem get_unique_id_fresh_witness :
    "root_100005" ∉ (ProcState.mk [] rnd5 0).ids ∧
    (ProcState.mk ["root_100005"] rnd5 1).ids =
      (ProcState.mk [] rnd5 0).ids ++ ["root_100005"] ∧
    ((ProcState.mk [] rnd5 0).ids.Nodup →
      (ProcState.mk ["root_100005"] rnd5 1).ids.Nodup) :=
  get_unique_id_fresh 3 "root" (ProcState.mk [] rnd5 0) "root_100005"
    (ProcState.mk ["root_100005"] rnd5 1) rfl

/-- With `useIds = false` the engine neither reads nor writes the process
state: every engine function computes its value independently of the
incoming state and returns that state unchanged.  Proved simultaneously for
all six mutually recursive functions by induction on fuel. -/
theorem engine_no_ids_pure : ∀ fuel,
    (∀ obj attr_type parent s1 s2,
      convert fuel obj false attr_type parent s1 =
        ((convert fuel obj false attr_type parent s2).1, s1)) ∧
    (∀ entries parent attr_type s1 s2,
      convert_dict fuel entries false parent attr_type s1 =
        ((convert_dict fuel entries false parent attr_type s2).1, s1)) ∧
    (∀ key val parent attr_type attr s1 s2,
      convert_dict_entry fuel key val false parent attr_type attr s1 =
        ((convert_dict_entry fuel key val false parent attr_type attr
          s2).1, s1)) ∧
    (∀ items parent attr_type s1 s2,
      convert_list fuel items false parent attr_type s1 =
        ((convert_list fuel items false parent attr_type s2).1, s1)) ∧
    (∀ items parent attr_type tid i s1 s2,
      convert_list_go fuel items false parent attr_type tid i s1 =
        ((convert_list_go fuel items false parent attr_type tid i s2).1,
          s1)) ∧
    (∀ item parent attr_type attr s1 s2,
      convert_list_item fuel item false parent attr_type attr s1 =
        ((convert_list_item fuel item false parent attr_type attr s2).1,
          s1)) := by
  intro fuel
  induction fuel with
  | zero =>
    exact ⟨fun _ _ _ _ _ => rfl, fun _ _ _ _ _ => rfl,
      fun _ _ _ _ _ _ _ => rfl, fun _ _ _ _ _ => rfl,
      fun _ _ _ _ _ _ _ => rfl, fun _ _ _ _ _ _ => rfl⟩
  | succ n ih =>
    obtain ⟨ihc, ihd, ihe, ihl, ihg, ihi⟩ := ih
    refine ⟨?_, ?_, ?_, ?_, ?_, ?_⟩
    · intro obj attr_type parent s1 s2
      cases obj with
      | str s => rfl
      | int m => rfl
      | float t => rfl
      | bool b => rfl
      | number ty t => rfl
      | datetime iso => rfl
      | null => rfl
      | dict entries => exact ihd entries parent attr_type s1 s2
      | list items => exact ihl items parent attr_type s1 s2
      | other ty t => rfl
    · intro entries parent attr_type s1 s2
      cases entries with
      | nil => rfl
      | cons e rest =>
        obtain ⟨key, val⟩ := e
        rcases hres2 : convert_dict_entry n key val false parent attr_type
          [] s2 with ⟨r2, st2'⟩
        have hst2 : st2' = s2 := by
          have h := ihe key val parent attr_type [] s2 s2
          rw [hres2] at h
          simpa using congrArg Prod.snd h
        rw [hst2] at hres2
        have hres1 : convert_dict_entry n key val false parent attr_type
            [] s1 = (r2, s1) := by
          rw [ihe key val parent attr_type [] s1 s2, hres2]
        rcases hd2 : convert_dict n rest false parent attr_type s2 with
          ⟨q2, su2⟩
        have hsu2 : su2 = s2 := by
          have h := ihd rest parent attr_type s2 s2
          rw [hd2] at h
          simpa using congrArg Prod.snd h
        rw [hsu2] at hd2
        have hd1 : convert_dict n rest false parent attr_type s1 =
            (q2, s1) := by
          rw [ihd rest parent attr_type s1 s2, hd2]
        rcases r2 with e | line
        · simp [convert_dict, hres1, hres2]
        · rcases q2 with e | restOut <;>
            simp [convert_dict, hres1, hres2, hd1, hd2]
    · intro key val parent attr_type attr s1 s2
      cases val with
      | str s => rfl
      | int m => rfl
      | float t => rfl
      | bool b => rfl
      | number ty t => rfl
      | datetime iso => rfl
      | null => rfl
      | other ty t => rfl
      | dict d =>
        cases attr_type with
        | true => rfl
        | false =>
          rcases h2 : convert_dict n d false (make_valid_xml_name key
            attr).1 false s2 with ⟨r2, st2'⟩
          have hst2 : st2' = s2 := by
            have h := ihd d (make_valid_xml_name key attr).1 false s2 s2
            rw [h2] at h
            simpa using congrArg Prod.snd h
          rw [hst2] at h2
          have h1 : convert_dict n d false (make_valid_xml_name key
              attr).1 false s1 = (r2, s1) := by
            rw [ihd d (make_valid_xml_name key attr).1 false s1 s2, h2]
          rcases r2 with e | inner <;>
            simp [convert_dict_entry, h1, h2]
      | list l =>
        cases attr_type with
        | true => rfl
        | false =>
          rcases h2 : convert_list n l false (make_valid_xml_name key
            attr).1 false s2 with ⟨r2, st2'⟩
          have hst2 : st2' = s2 := by
            have h := ihl l (make_valid_xml_name key attr).1 false s2 s2
            rw [h2] at h
            simpa using congrArg Prod.snd h
          rw [hst2] at h2
          have h1 : convert_list n l false (make_valid_xml_name key
              attr).1 false s1 = (r2, s1) := by
            rw [ihl l (make_valid_xml_name key attr).1 false s1 s2, h2]
          rcases r2 with e | inner <;>
            simp [convert_dict_entry, h1, h2]
    · intro items parent attr_type s1 s2
      exact ihg items parent attr_type "" 0 s1 s2
    · intro items parent attr_type tid i s1 s2
      cases items with
      | nil => rfl
      | cons item rest =>
        rcases hi2 : convert_list_item n item false parent attr_type [] s2
          with ⟨r2, st2'⟩
        have hst2 : st2' = s2 := by
          have h := ihi item parent attr_type [] s2 s2
          rw [hi2] at h
          simpa using congrArg Prod.snd h
        rw [hst2] at hi2
        have hi1 : convert_list_item n item false parent attr_type [] s1 =
            (r2, s1) := by
          rw [ihi item parent attr_type [] s1 s2, hi2]
        rcases hg2 : convert_list_go n rest false parent attr_type tid
          (i + 1) s2 with ⟨q2, su2⟩
        have hsu2 : su2 = s2 := by
          have h := ihg rest parent attr_type tid (i + 1) s2 s2
          rw [hg2] at h
          simpa using congrArg Prod.snd h
        rw [hsu2] at hg2
        have hg1 : convert_list_go n rest false parent attr_type tid
            (i + 1) s1 = (q2, s1) := by
          rw [ihg rest parent attr_type tid (i + 1) s1 s2, hg2]
        rcases r2 with e | line
        · simp [convert_list_go, hi1, hi2]
        · rcases q2 with e | restOut <;>
            simp [convert_list_go, hi1, hi2, hg1, hg2]
    · intro item parent attr_type attr s1 s2
      cases item with
      | str s => rfl
      | int m => rfl
      | float t => rfl
      | bool b => rfl
      | number ty t => rfl
      | datetime iso => rfl
      | null => rfl
      | other ty t => rfl
      | dict d =>
        cases attr_type with
        | false => exact ihd d parent false s1 s2
        | true =>
          rcases h2 : convert_dict n d false parent true s2 with ⟨r2, st2'⟩
          have hst2 : st2' = s2 := by
            have h := ihd d parent true s2 s2
            rw [h2] at h
            simpa using congrArg Prod.snd h
          rw [hst2] at h2
          have h1 : convert_dict n d false parent true s1 = (r2, s1) := by
            rw [ihd d parent true s1 s2, h2]
          rcases r2 with e | inner <;>
            simp [convert_list_item, h1, h2]
      | list l =>
        cases attr_type with
        | false => exact ihl l "item" false s1 s2
        | true =>
          rcases h2 : convert_list n l false "item" true s2 with ⟨r2, st2'⟩
          have hst2 : st2' = s2 := by
            have h := ihl l "item" true s2 s2
            rw [h2] at h
            simpa using congrArg Prod.snd h
          rw [hst2] at h2
          have h1 : convert_list n l false "item" true s1 = (r2, s1) := by
            rw [ihl l "item" true s1 s2, h2]
          rcases r2 with e | inner <;>
            simp [convert_list_item, h1, h2]

/-- C5: with `useIds = false`, conversion is deterministic with respect to
the process state — two calls to the Document Assembler with the same value
and the same flags return the same output string (hence the same UTF-8
bytes), whatever distinct process states (registry contents, random-stream
positions) earlier conversions may have left behind. -/
theorem dicttoxml_no_ids_deterministic :
    ∀ fuel obj root name attr_type s1 s2,
      (dicttoxml fuel obj root name false attr_type s1).1 =
      (dicttoxml fuel obj root name false attr_type s2).1 := by
  intro fuel obj root name attr_type s1 s2
  cases root with
  | false =>
    have hc := (engine_no_ids_pure fuel).1 obj attr_type "" s1 s2
    simp [dicttoxml, hc]
  | true =>
    have hc := (engine_no_ids_pure fuel).1 obj attr_type name s1 s2
    rcases h2 : convert fuel obj false attr_type name s2 with ⟨r2, st2'⟩
    have h1 : convert fuel obj false attr_type name s1 = (r2, s1) := by
      rw [hc, h2]
    rcases r2 with e | inner <;> simp [dicttoxml, h1, h2]

end Dicttoxml
